import Mathlib

/-!
Verification model of the bumper MQTT broker plugin, RPC correlator
(`MQTTHelperBot`) and proxy relay (`src/bumper/mqttserver.py`).

Python semantics are embedded shallowly: `str.split(sep)` with a one-char
separator, the substring test `needle in hay`, list indexing (raising
`IndexError` when out of range), `list.remove`, insertion-ordered dicts,
and f-string evaluation of an undefined name (raising `NameError`) are all
given explicit executable counterparts below.  Machine state that the
plugin mutates (device registry, proxy-client table, the correlator's
response buffer) is threaded explicitly.
-/

/-- A Python runtime error relevant to the modelled code paths. -/
inductive PyErr
  | indexError
  | nameError
deriving DecidableEq, Repr

/-- Python list indexing `l[i]`: returns the element or raises `IndexError`. -/
def pyGet {α : Type} (l : List α) (i : Nat) : Except PyErr α :=
  match l[i]? with
  | some v => .ok v
  | none => .error .indexError

/-- Worker for `pySplit`: accumulates the current field (reversed) while
scanning the character list. -/
def pySplitGo (sep : Char) : List Char → List Char → List String
  | [], acc => [String.mk acc.reverse]
  | c :: cs, acc =>
    if c = sep then String.mk acc.reverse :: pySplitGo sep cs []
    else pySplitGo sep cs (c :: acc)

/-- Python `s.split(sep)` for a one-character separator: `"" → [""]`,
adjacent separators yield empty fields, trailing separator yields a final
empty field. -/
def pySplit (s : String) (sep : Char) : List String :=
  pySplitGo sep s.data []

/-- Boolean list-prefix test (needle, haystack). -/
def isPrefixB : List Char → List Char → Bool
  | [], _ => true
  | _ :: _, [] => false
  | a :: as, b :: bs => a == b && isPrefixB as bs

/-- Boolean substring test on character lists (needle, haystack). -/
def substrB (n : List Char) : List Char → Bool
  | [] => isPrefixB n []
  | c :: t => isPrefixB n (c :: t) || substrB n t

/-- Python `needle in hay` for strings. -/
def pyContains (hay needle : String) : Bool :=
  substrB needle.data hay.data

/-- Python truthiness of an optional string: `None` and `""` are falsy. -/
def pyTruthy : Option String → Bool
  | none => false
  | some s => !(s == "")

/-- Python `list.remove(x)`: drop the first element equal to `x`
(the modelled call sites always pass a member, so the `ValueError`
branch is unreachable and the no-op on a missing element is harmless). -/
def pyRemove {α : Type} [DecidableEq α] : List α → α → List α
  | [], _ => []
  | a :: t, x => if a = x then t else a :: pyRemove t x

/-- Python `"/".join(parts)`. -/
def joinSlash (parts : List String) : String :=
  String.intercalate "/" parts

/-- Lookup in an insertion-ordered dict represented as an association list. -/
def dictGet {α : Type} (d : List (String × α)) (k : String) : Option α :=
  (d.find? (fun p => p.1 == k)).map (·.2)

/-- Python `d[k] = v` on an insertion-ordered dict: update in place, or
append a new binding at the end. -/
def dictSet {α : Type} : List (String × α) → String → α → List (String × α)
  | [], k, v => [(k, v)]
  | (k', v') :: t, k, v =>
    if k' == k then (k', v) :: t else (k', v') :: dictSet t k v

/-- Python `d.pop(k, default)`: return the bound value (or the default) and
the dict without that key. -/
def dictPop {α : Type} : List (String × α) → String → α → α × List (String × α)
  | [], _, dflt => (dflt, [])
  | (k', v') :: t, k, dflt =>
    if k' == k then (v', t)
    else
      let r := dictPop t k dflt
      (r.1, (k', v') :: r.2)

/-!
## JSON fragment

`send_command` and `wait_for_resp` call the Python `json` library
(`json.dumps` / `json.loads`), an external capability.  Modelled from the
spec: the payload codec is embedded on the fragment of JSON actually
exercised by the round-trip property — decimal naturals and printable
ASCII strings without `"` or backslash (exactly the values on which
`json.dumps` emits no escapes).  `jloads` is a real parser for that
fragment and fails (`none`, the model of a raised decode error) elsewhere.
-/

/-- A JSON value in the modelled fragment. -/
inductive J
  | jnum (n : Nat)
  | jstr (s : String)
deriving DecidableEq, Repr

/-- A string character that `json.dumps` emits verbatim (printable ASCII,
not a quote, not a backslash). -/
def wfChar (c : Char) : Bool :=
  (32 ≤ c.toNat) && (c.toNat < 127) && !(c == '"') && !(c == '\\')

/-- Well-formedness of a fragment value. -/
def wfJ : J → Bool
  | .jnum _ => true
  | .jstr s => s.data.all wfChar

/-- The decimal digit character for `d < 10`. -/
def digitChar : Nat → Char
  | 0 => '0' | 1 => '1' | 2 => '2' | 3 => '3' | 4 => '4'
  | 5 => '5' | 6 => '6' | 7 => '7' | 8 => '8' | _ => '9'

/-- Numeric value of a decimal digit character. -/
def digitVal (c : Char) : Nat :=
  c.toNat - 48

/-- Fuelled decimal printer (most significant digit first); the fuel is
always at least the number before printing starts, so it never runs out. -/
def natDigitsAux : Nat → Nat → List Char
  | 0, n => [digitChar (n % 10)]
  | fuel + 1, n =>
    if n < 10 then [digitChar n]
    else natDigitsAux fuel (n / 10) ++ [digitChar (n % 10)]

/-- The decimal digits of a natural number. -/
def natDigits (n : Nat) : List Char :=
  natDigitsAux n n

/-- Python `str(v)` on a fragment value (no quotes around strings). -/
def pyStr : J → String
  | .jnum n => String.mk (natDigits n)
  | .jstr s => s

/-- `json.dumps` on the fragment. -/
def jdumps : J → String
  | .jnum n => String.mk (natDigits n)
  | .jstr s => String.mk ('"' :: s.data ++ ['"'])

/-- Parse the body of a JSON string literal: everything up to a closing
quote that must end the input; escapes are outside the fragment. -/
def strContent : List Char → Option (List Char)
  | [] => none
  | c :: cs =>
    if c = '"' then if cs = [] then some [] else none
    else if c = '\\' then none
    else (strContent cs).map (fun l => c :: l)

/-- Fold a digit list into its numeric value. -/
def digitsToNat (l : List Char) : Nat :=
  l.foldl (fun a c => a * 10 + digitVal c) 0

/-- Body of `jloads` on the character list of the input. -/
def jloadsAux : List Char → Option J
  | [] => none
  | c :: cs =>
    if c = '"' then (strContent cs).map (fun l => .jstr (String.mk l))
    else if (c :: cs).all Char.isDigit then some (.jnum (digitsToNat (c :: cs)))
    else none

/-- `json.loads` on the fragment: a quoted string or a decimal natural;
`none` models a raised decode error. -/
def jloads (t : String) : Option J :=
  jloadsAux t.data

/-!
## Data model

The device registry (`bumper.bot_add`, `bumper.bot_get`,
`bumper.bot_set_mqtt`, `bumper.client_add`, `bumper.client_get`,
`bumper.client_set_mqtt`) lives in the `bumper` package outside
`src/`.  Modelled from the spec: a persistent mapping from device identity
to metadata with a live-connection flag, exposing per-key upsert / get /
set-connected operations (`upsertBot`, `getBot`, `setBotConnected`,
`upsertClient`, `getClient`, `setClientConnected`).
-/

/-- A Bot registry entry; fields in the order of the `bot_add` call
(serial, DID, device class, resource, company).  The serial is the raw
session username, which Python allows to be `None`. -/
structure BotRec where
  serial : Option String
  did : String
  devclass : String
  resource : String
  company : String
  mqtt_connected : Bool
deriving DecidableEq, Repr

/-- A client (operator) registry entry; fields in the order of the
`client_add` call. -/
structure ClientRec where
  userid : String
  realm : String
  resource : String
  mqtt_connected : Bool
deriving DecidableEq, Repr

/-- Modelled from the spec: `getBot` — registry lookup keyed by DID. -/
def botGet (bots : List BotRec) (did : String) : Option BotRec :=
  bots.find? (fun b => b.did == did)

/-- Modelled from the spec: `upsertBot` — register/update keyed by DID; an
update keeps the stored live-connection flag, an insert starts not live. -/
def bot_upsert (bots : List BotRec) (b : BotRec) : List BotRec :=
  if (botGet bots b.did).isSome then
    bots.map (fun o => if o.did == b.did then { b with mqtt_connected := o.mqtt_connected } else o)
  else bots ++ [b]

/-- Modelled from the spec: `setBotConnected` keyed by DID. -/
def bot_set_mqtt (bots : List BotRec) (did : String) (flag : Bool) : List BotRec :=
  bots.map (fun b => if b.did == did then { b with mqtt_connected := flag } else b)

/-- Modelled from the spec: `getClient` — the caller in
`_set_client_connected` keys the lookup by resource. -/
def clientGet (clients : List ClientRec) (resource : String) : Option ClientRec :=
  clients.find? (fun c => c.resource == resource)

/-- Modelled from the spec: `upsertClient` keyed by user id. -/
def client_upsert (clients : List ClientRec) (c : ClientRec) : List ClientRec :=
  if (clients.find? (fun o => o.userid == c.userid)).isSome then
    clients.map (fun o => if o.userid == c.userid then { c with mqtt_connected := o.mqtt_connected } else o)
  else clients ++ [c]

/-- Modelled from the spec: `setClientConnected` keyed by resource. -/
def client_set_mqtt (clients : List ClientRec) (resource : String) (flag : Bool) : List ClientRec :=
  clients.map (fun c => if c.resource == resource then { c with mqtt_connected := flag } else c)

/-- A Pending Request Record in `MQTTHelperBot.command_responses`:
the dict `{time, topic, payload}` appended by the broker message hook. -/
structure Rec where
  time : Nat
  topic : String
  payload : String
deriving DecidableEq, Repr

/-- One per-bot upstream proxy connection
(`BumperProxyModeMQTTClient` instance): its connection flag and the
messages it has published to the upstream (Ecovacs) broker. -/
structure PClient where
  connected : Bool
  upstream_published : List (String × String)
deriving DecidableEq, Repr

/-- The mutable state shared by the plugin, the correlator and the proxy
relay.  `eco_helper_names` is a class attribute of
`BumperProxyModeMQTTClient`, hence a single table shared by every proxy
client; `proxyclients` is likewise a class attribute of the plugin. -/
structure GlobalState where
  bots : List BotRec
  clients : List ClientRec
  proxyclients : List (String × PClient)
  eco_helper_names : List (String × String)
  command_responses : List Rec
  helperbot_published : List (String × String)
deriving DecidableEq, Repr

/-- The empty initial state. -/
def st0 : GlobalState :=
  ⟨[], [], [], [], [], []⟩

/-- Deployment configuration and the external capabilities the plugin
consumes: `bumper.use_auth`, `bumper.bumper_proxy_mode`,
`bumper.config_proxyMode_getServerIP` (empty string when unconfigured),
`bumper.check_authcode` (external authcode verifier),
`passlib`'s `pwd_context.verify`, the broker's `allow-anonymous` flag and
the parsed password file `self._users`. -/
structure Env where
  bumper_proxy_mode : Bool
  mqtt_server : String
  use_auth : Bool
  check_authcode : String → Option String → Bool
  pwd_verify : Option String → String → Bool
  allow_anonymous : Bool
  users : List (String × String)
  upstream_connect_ok : Bool

/-- The connection-handshake data `authenticate` reads from the broker
session. -/
structure MqttSession where
  client_id : String
  username : Option String
  password : Option String

/-!
## RPC correlator (`MQTTHelperBot`)
-/

/-- The decoded payload of a correlator reply: `json.loads`-decoded for
payload type `j`, the raw text otherwise. -/
inductive RespPayload
  | json (v : J)
  | raw (s : String)
deriving DecidableEq, Repr

/-- The dict returned by `wait_for_resp` / `send_command`; fields absent
from a branch's dict are `none`. -/
structure CmdResp where
  id : String
  ret : String
  resp : Option RespPayload
  errno : Option Nat
  debug : Option String
deriving DecidableEq, Repr

/-- The failure dict `wait_for_resp` returns when the poll loop ends
without a match or an exception (also a JSON decode error or an
out-of-range topic index) was caught. -/
def failResp (requestid : String) : CmdResp :=
  ⟨requestid, "fail", none, some 500, some "wait for response timed out"⟩

/-- Outcome of one scan of the response buffer inside `wait_for_resp`'s
poll loop. -/
inductive ScanOut
  | found (r : Rec) (p : RespPayload)
  | exn
  | noMatch
deriving DecidableEq, Repr

/-- One pass of `wait_for_resp`'s scan over `command_responses`: the first
record whose topic segment 6 is `helperbot` and segment 10 is the request
id is decoded per segment 11.  An out-of-range index or a JSON decode
failure raises, which the enclosing `except` turns into the failure
dict. -/
def scan (requestid : String) : List Rec → ScanOut
  | [] => .noMatch
  | msg :: rest =>
    let t := pySplit msg.topic '/'
    match pyGet t 6 with
    | .error _ => .exn
    | .ok s6 =>
      if s6 = "helperbot" then
        match pyGet t 10 with
        | .error _ => .exn
        | .ok s10 =>
          if s10 = requestid then
            match pyGet t 11 with
            | .error _ => .exn
            | .ok s11 =>
              if s11 = "j" then
                match jloads msg.payload with
                | some v => .found msg (.json v)
                | none => .exn
              else .found msg (.raw msg.payload)
          else scan requestid rest
      else scan requestid rest

/-- `MQTTHelperBot.wait_for_resp`, with the timed poll loop collapsed to
one scan of the buffer passed in: a match is returned (and removed via
`list.remove`); no match within the window, or a caught exception, yields
the failure dict with the buffer unchanged. -/
def wait_for_resp (buffer : List Rec) (requestid : String) : CmdResp × List Rec :=
  match scan requestid buffer with
  | .found msg p => (⟨requestid, "ok", some p, none, none⟩, pyRemove buffer msg)
  | .exn => (failResp requestid, buffer)
  | .noMatch => (failResp requestid, buffer)

/-- The `cmdjson` argument of `send_command`. -/
structure CmdJson where
  cmdName : String
  toId : String
  toType : String
  toRes : String
  payloadType : String
  payload : J
deriving Repr

/-- Result of `send_command`: the returned value (`none` models Python's
implicit `None` return), the response buffer afterwards, and the messages
published on the helperbot client. -/
structure SendOut where
  resp : Option CmdResp
  buffer : List Rec
  published : List (String × String)
deriving DecidableEq, Repr

/-- `MQTTHelperBot.send_command`: when the handler's writer is absent the
whole body is skipped and the function returns `None`; otherwise it builds
the request topic, publishes the payload (string-coerced for `x`,
JSON-encoded for `j`, nothing for any other type) and returns the result
of `wait_for_resp` on the buffer as of the scan. -/
def send_command (writer : Option Unit) (buffer : List Rec) (cmdjson : CmdJson)
    (requestid : String) : SendOut :=
  match writer with
  | none => ⟨none, buffer, []⟩
  | some _ =>
    let ttopic := "iot/p2p/" ++ cmdjson.cmdName ++ "/helperbot/bumper/helperbot/"
      ++ cmdjson.toId ++ "/" ++ cmdjson.toType ++ "/" ++ cmdjson.toRes
      ++ "/q/" ++ requestid ++ "/" ++ cmdjson.payloadType
    let published :=
      if cmdjson.payloadType = "x" then [(ttopic, pyStr cmdjson.payload)]
      else if cmdjson.payloadType = "j" then [(ttopic, jdumps cmdjson.payload)]
      else []
    let r := wait_for_resp buffer requestid
    ⟨some r.1, r.2, published⟩

/-!
## Proxy relay (`BumperProxyModeMQTTClient.get_msg`)
-/

/-- One iteration of `get_msg` for a message received from the upstream
broker: a `p2p` topic records `requestId -> original sender` in the shared
`eco_helper_names` table and has its sender segment (index 3) rewritten to
`proxyhelper`; the (possibly rewritten) message is republished on the
local broker via the helperbot client.  Returns the new table and the
downstream publication; an out-of-range index raises (caught by
`get_msg`'s own `except`, ending the forwarding task). -/
def get_msg_step (names : List (String × String)) (topic : String)
    (msgdata : String) : Except PyErr (List (String × String) × (String × String)) := do
  let ttopic := pySplit topic '/'
  let t1 ← pyGet ttopic 1
  if t1 = "p2p" then
    let t3 ← pyGet ttopic 3
    let t10 ← pyGet ttopic 10
    let names' := dictSet names t10 t3
    let ttopic' := ttopic.set 3 "proxyhelper"
    return (names', (joinSlash ttopic', msgdata))
  else
    return (names, (topic, msgdata))

/-!
## Auth & routing plugin (`BumperMQTTServer_Plugin`)
-/

/-- Outcome of the `try` block of `authenticate`, with the state as of the
return or raise: `ok` reaches the end of the block, `exn` models a raised
exception (caught by the enclosing `except`, which resets the flag to
false), `exit` models the uncaught `SystemExit` of `exit(1)`. -/
inductive AuthTryOut
  | ok (authenticated : Bool) (st : GlobalState)
  | exn (st : GlobalState)
  | exit (st : GlobalState)
deriving DecidableEq, Repr

/-- The file-auth tail of the `try` block: with a truthy username and the
session still unauthenticated, look the username up in the parsed password
file and verify the password against the stored hash. -/
def fileCheck (env : Env) (st : GlobalState) (s : MqttSession)
    (authenticated : Bool) : AuthTryOut :=
  if pyTruthy s.username && !authenticated then
    match dictGet env.users (s.username.getD "") with
    | some h => .ok (env.pwd_verify s.password h) st
    | none => .ok false st
  else .ok authenticated st

/-- The `try` block of `BumperMQTTServer_Plugin.authenticate`.  A client id
containing `@` is split; when neither `ecouser` nor `bumper` occurs as a
substring of the part after the first `@`, the Bot path runs `bot_add` and
(in proxy mode) creates the upstream proxy client — or exits the process
when no upstream server is configured.  Otherwise the operator/helper path
runs.  List indexing raises on malformed ids, aborting the block. -/
def authenticateTry (env : Env) (st : GlobalState) (s : MqttSession) : AuthTryOut :=
  let client_id := s.client_id
  if pyContains client_id "@" then
    match pyGet (pySplit client_id '@') 1 with
    | .error _ => .exn st
    | .ok d1 =>
      if !(pyContains d1 "ecouser" || pyContains d1 "bumper") then
        let tmpbotdetail := pySplit d1 '/'
        match pyGet tmpbotdetail 1 with
        | .error _ => .exn st
        | .ok t1 =>
          let st := { st with
            bots := bot_upsert st.bots
              ⟨s.username, (pySplit client_id '@').headD "", tmpbotdetail.headD "", t1, "eco-ng", false⟩ }
          if env.bumper_proxy_mode then
            if env.mqtt_server = "" then .exit st
            else
              let st := { st with
                proxyclients := dictSet st.proxyclients client_id ⟨env.upstream_connect_ok, []⟩ }
              fileCheck env st s true
          else fileCheck env st s true
      else
        let tmpclientdetail := pySplit d1 '/'
        let userid := (pySplit client_id '@').headD ""
        match pyGet tmpclientdetail 1 with
        | .error _ => .exn st
        | .ok resource =>
          let realm := tmpclientdetail.headD ""
          if userid = "helperbot" then fileCheck env st s true
          else if env.check_authcode userid s.password || !env.use_auth then
            let st := { st with clients := client_upsert st.clients ⟨userid, realm, resource, false⟩ }
            fileCheck env st s true
          else fileCheck env st s false
  else fileCheck env st s false

/-- The overall result of `authenticate`: the boolean handed back to the
broker plus the state, or a process exit. -/
inductive AuthResult
  | ret (authenticated : Bool) (st : GlobalState)
  | exited (st : GlobalState)
deriving DecidableEq, Repr

/-- `BumperMQTTServer_Plugin.authenticate`: the `try` block, the `except`
handler (which forces the flag to false), and the final anonymous-access
check that runs in both cases. -/
def authenticate (env : Env) (st : GlobalState) (s : MqttSession) : AuthResult :=
  match authenticateTry env st s with
  | .ok b st' => .ret (if env.allow_anonymous && !b then true else b) st'
  | .exn st' => .ret (if env.allow_anonymous then true else false) st'
  | .exit st' => .exited st'

/-- Result of a lifecycle hook body: normal completion or a raised (and
uncaught) Python error. -/
inductive HRes
  | ok
  | raised (e : PyErr)
deriving DecidableEq, Repr

/-- `BumperMQTTServer_Plugin._set_client_connected`: split the client id at
`@`, look the first part up as a bot DID, else parse the resource out of
the second part and look it up as a client; either registry entry found
has its live flag set.  Indexing past the end of the split (no `@`, or no
`/` after it) raises. -/
def set_client_connected (st : GlobalState) (client_id : String)
    (connected : Bool) : HRes × GlobalState :=
  let didsplit := pySplit client_id '@'
  match botGet st.bots (didsplit.headD "") with
  | some bot => (.ok, { st with bots := bot_set_mqtt st.bots bot.did connected })
  | none =>
    match pyGet didsplit 1 with
    | .error e => (.raised e, st)
    | .ok d1 =>
      match pyGet (pySplit d1 '/') 1 with
      | .error e => (.raised e, st)
      | .ok clientresource =>
        match clientGet st.clients clientresource with
        | some c => (.ok, { st with clients := client_set_mqtt st.clients c.resource connected })
        | none => (.ok, st)

/-- How the message hook classified (routed) a message; `none` when the
hook raised before classifying. -/
inductive Route
  | response
  | command
  | errorEvent
  | broadcast
  | unclassified
deriving DecidableEq, Repr

/-- Result of `on_broker_message_received`: hook outcome, state afterwards,
and the classification route taken. -/
structure HookOut where
  res : HRes
  st : GlobalState
  route : Option Route
deriving DecidableEq, Repr

/-- The pruning loop at the end of `on_broker_message_received`, with
CPython's `for`-over-a-mutating-list semantics made explicit: the iterator
index `k` advances by one per step even when the element just visited was
removed (so the element sliding into the freed slot is skipped).  The fuel
starts at the list length, which bounds the number of iterations. -/
def pruneLoop (now : Nat) : Nat → List Rec → Nat → List Rec
  | 0, lst, _ => lst
  | fuel + 1, lst, k =>
    match lst[k]? with
    | none => lst
    | some msg =>
      if now > msg.time + 60 then pruneLoop now fuel (pyRemove lst msg) (k + 1)
      else pruneLoop now fuel lst (k + 1)

/-- The cleanup pass: remove records older than
`MQTTHelperBot.wait_resp_timeout_seconds` (60 s), via the skipping
iteration above. -/
def prune (now : Nat) (lst : List Rec) : List Rec :=
  pruneLoop now lst.length lst 0

/-- The classification tail of `on_broker_message_received` (reached when
the proxy branch did not raise): append helperbot-destined replies to the
response buffer, log the other shapes, then run the cleanup pass. -/
def hookClassify (st : GlobalState) (msg_topic msg_data : String) (now : Nat) : HookOut :=
  let topic_split := pySplit msg_topic '/'
  let fin := fun (st : GlobalState) (r : Route) =>
    HookOut.mk .ok { st with command_responses := prune now st.command_responses } (some r)
  match pyGet topic_split 6 with
  | .error e => ⟨.raised e, st, none⟩
  | .ok s6 =>
    if s6 = "helperbot" then
      fin { st with command_responses := st.command_responses ++ [⟨now, msg_topic, msg_data⟩] } .response
    else
      match pyGet topic_split 3 with
      | .error e => ⟨.raised e, st, none⟩
      | .ok s3 =>
        if s3 = "helperbot" then fin st .command
        else
          match pyGet topic_split 1 with
          | .error e => ⟨.raised e, st, none⟩
          | .ok s1 =>
            if s1 = "atr" then
              match pyGet topic_split 2 with
              | .error e => ⟨.raised e, st, none⟩
              | .ok s2 => if s2 = "errors" then fin st .errorEvent else fin st .broadcast
            else fin st .unclassified

/-- `BumperMQTTServer_Plugin.on_broker_message_received`.  In proxy mode a
message from a proxied bot that did not originate from `proxyhelper` is to
be forwarded upstream; both forwarding branches interpolate the name
`msgdata`, which is never assigned in this function, so they raise
`NameError` (after the reply branch has already popped the sender mapping)
and the hook aborts.  Otherwise the message is classified and the buffer
pruned. -/
def on_broker_message_received (env : Env) (st : GlobalState) (client_id : String)
    (msg_topic msg_data : String) (now : Nat) : HookOut :=
  let topic_split := pySplit msg_topic '/'
  if env.bumper_proxy_mode && (dictGet st.proxyclients client_id).isSome then
    match pyGet topic_split 3 with
    | .error e => ⟨.raised e, st, none⟩
    | .ok s3 =>
      if s3 ≠ "proxyhelper" then
        match pyGet topic_split 6 with
        | .error e => ⟨.raised e, st, none⟩
        | .ok s6 =>
          if s6 = "proxyhelper" then
            match pyGet topic_split 10 with
            | .error e => ⟨.raised e, st, none⟩
            | .ok s10 =>
              let popped := dictPop st.eco_helper_names s10 ""
              let st := { st with eco_helper_names := popped.2 }
              ⟨.raised .nameError, st, none⟩
          else ⟨.raised .nameError, st, none⟩
      else hookClassify st msg_topic msg_data now
  else hookClassify st msg_topic msg_data now

/-- hbmqtt's `MQTTClient.disconnect` on the upstream proxy client: closes
the connection when connected, logs and does nothing otherwise (external
library, modelled from the spec's "close its upstream connection"). -/
def hb_disconnect (pc : PClient) : PClient :=
  { pc with connected := false }

/-- `BumperMQTTServer_Plugin.on_broker_client_disconnected`: in proxy mode
a proxied client id has its upstream client disconnected (the table entry
itself stays), then the registry live flag is cleared. -/
def on_broker_client_disconnected (env : Env) (st : GlobalState)
    (client_id : String) : HRes × GlobalState :=
  let st1 :=
    if env.bumper_proxy_mode then
      match dictGet st.proxyclients client_id with
      | some pc => { st with proxyclients := dictSet st.proxyclients client_id (hb_disconnect pc) }
      | none => st
    else st
  set_client_connected st1 client_id false

/-!
## Lemmas about the Python-semantics helpers
-/

theorem stringMk_data (s : String) : String.mk s.data = s := rfl

theorem pySplitGo_no_sep (sep : Char) (xs : List Char) (hx : sep ∉ xs) :
    ∀ acc, pySplitGo sep xs acc = [String.mk (acc.reverse ++ xs)] := by
  induction xs with
  | nil => intro acc; simp [pySplitGo]
  | cons c cs ih =>
    intro acc
    have hc : c ≠ sep := fun h => hx (h ▸ List.mem_cons_self c cs)
    have hcs : sep ∉ cs := fun h => hx (List.mem_cons_of_mem c h)
    simp [pySplitGo, if_neg hc, ih hcs (c :: acc)]

theorem pySplitGo_sep (sep : Char) (xs ys : List Char) (hx : sep ∉ xs) :
    ∀ acc, pySplitGo sep (xs ++ sep :: ys) acc =
      String.mk (acc.reverse ++ xs) :: pySplitGo sep ys [] := by
  induction xs with
  | nil => intro acc; simp [pySplitGo]
  | cons c cs ih =>
    intro acc
    have hc : c ≠ sep := fun h => hx (h ▸ List.mem_cons_self c cs)
    have hcs : sep ∉ cs := fun h => hx (List.mem_cons_of_mem c h)
    simp [pySplitGo, if_neg hc, ih hcs (c :: acc), List.append_assoc]

theorem pySplit_pair (a m b : String) (sep : Char) (hm : m.data = [sep])
    (ha : sep ∉ a.data) (hb : sep ∉ b.data) :
    pySplit (a ++ m ++ b) sep = [a, b] := by
  have hdata : (a ++ m ++ b).data = a.data ++ sep :: b.data := by
    simp [String.data_append, hm]
  rw [pySplit, hdata, pySplitGo_sep sep a.data b.data ha, pySplitGo_no_sep sep b.data hb]
  simp [stringMk_data]

theorem pySplit_single (b : String) (sep : Char) (hb : sep ∉ b.data) :
    pySplit b sep = [b] := by
  rw [pySplit, pySplitGo_no_sep sep b.data hb]
  simp [stringMk_data]

theorem isPrefixB_append_self (n : List Char) : ∀ t, isPrefixB n (n ++ t) = true := by
  induction n with
  | nil => intro t; rfl
  | cons c cs ih => intro t; simp [isPrefixB, ih]

theorem substrB_of_prefixB (n h : List Char) (hp : isPrefixB n h = true) :
    substrB n h = true := by
  cases h with
  | nil => cases n with
    | nil => rfl
    | cons c cs => simp [isPrefixB] at hp
  | cons c cs => simp [substrB, hp]

theorem substrB_mid (n : List Char) : ∀ pre suf, substrB n (pre ++ n ++ suf) = true := by
  intro pre
  induction pre with
  | nil =>
    intro suf
    exact substrB_of_prefixB n (n ++ suf) (isPrefixB_append_self n suf)
  | cons c cs ih =>
    intro suf
    simp only [List.cons_append, substrB, Bool.or_eq_true]
    exact Or.inr (ih suf)

theorem pyContains_mid (a m b : String) (hm : ∃ pre suf, (a ++ m ++ b).data = pre ++ m.data ++ suf) :
    pyContains (a ++ m ++ b) m = true := by
  obtain ⟨pre, suf, h⟩ := hm
  rw [pyContains, h, substrB_mid]

/-!
## Round-trip of the JSON fragment codec
-/

theorem digitChar_spec : ∀ d, d < 10 →
    (digitChar d).isDigit = true ∧ digitVal (digitChar d) = d := by decide

theorem digitsToNat_append (l : List Char) (c : Char) :
    digitsToNat (l ++ [c]) = digitsToNat l * 10 + digitVal c := by
  simp [digitsToNat, List.foldl_append]

theorem natDigitsAux_spec (fuel : Nat) : ∀ n, n ≤ fuel →
    natDigitsAux fuel n ≠ [] ∧ (natDigitsAux fuel n).all Char.isDigit = true ∧
      digitsToNat (natDigitsAux fuel n) = n := by
  induction fuel with
  | zero =>
    intro n hn
    interval_cases n
    refine ⟨by simp [natDigitsAux], by decide, by decide⟩
  | succ fuel ih =>
    intro n hn
    by_cases h10 : n < 10
    · obtain ⟨hd, hv⟩ := digitChar_spec n h10
      refine ⟨by simp [natDigitsAux, if_pos h10], ?_, ?_⟩
      · simp [natDigitsAux, if_pos h10, hd]
      · simp [natDigitsAux, if_pos h10, digitsToNat, hv]
    · have hdiv : n / 10 ≤ fuel := by
        have : n / 10 < n := Nat.div_lt_self (by omega) (by omega)
        omega
      obtain ⟨hne, hall, hval⟩ := ih (n / 10) hdiv
      obtain ⟨hd, hv⟩ := digitChar_spec (n % 10) (Nat.mod_lt n (by omega))
      refine ⟨by simp [natDigitsAux, if_neg h10], ?_, ?_⟩
      · simp [natDigitsAux, if_neg h10, List.all_append, hall, hd]
      · rw [natDigitsAux, if_neg h10, digitsToNat_append, hval, hv]
        omega

theorem natDigits_spec (n : Nat) :
    natDigits n ≠ [] ∧ (natDigits n).all Char.isDigit = true ∧
      digitsToNat (natDigits n) = n :=
  natDigitsAux_spec n n (Nat.le_refl n)

theorem isDigit_ne_quote (c : Char) (h : c.isDigit = true) : c ≠ '"' := by
  intro hc
  subst hc
  simp [Char.isDigit] at h

theorem strContent_closed (s : List Char) (hs : s.all wfChar = true) :
    strContent (s ++ ['"']) = some s := by
  induction s with
  | nil => rfl
  | cons c cs ih =>
    simp only [List.all_cons, Bool.and_eq_true] at hs
    have hq : c ≠ '"' := by
      intro hc
      subst hc
      simp [wfChar] at hs
    have hb : c ≠ '\\' := by
      intro hc
      subst hc
      simp [wfChar] at hs
    simp [strContent, if_neg hq, if_neg hb, ih hs.2]

/-- The library round trip on the modelled fragment: `json.loads` inverts
`json.dumps` on well-formed values. -/
theorem jloads_jdumps (v : J) (h : wfJ v = true) : jloads (jdumps v) = some v := by
  cases v with
  | jstr s =>
    show jloadsAux (String.mk ('"' :: s.data ++ ['"'])).data = some (.jstr s)
    rw [stringMk_data]
    simp only [jloadsAux, List.cons_append, if_pos rfl]
    rw [strContent_closed s.data h]
    simp [stringMk_data]
  | jnum n =>
    show jloadsAux (String.mk (natDigits n)).data = some (.jnum n)
    rw [stringMk_data]
    obtain ⟨hne, hall, hval⟩ := natDigits_spec n
    obtain ⟨c, cs, hcons⟩ := List.exists_cons_of_ne_nil hne
    have hcd : c.isDigit = true := by
      rw [hcons] at hall
      simp only [List.all_cons, Bool.and_eq_true] at hall
      exact hall.1
    rw [hcons]
    simp only [jloadsAux, if_neg (isDigit_ne_quote c hcd)]
    rw [← hcons, hall]
    simp [hval]

/-!
## Lemmas about the response-buffer scan and removal
-/

theorem pyGet_ok_iff {α : Type} (l : List α) (i : Nat) (v : α) :
    pyGet l i = .ok v ↔ l[i]? = some v := by
  unfold pyGet
  cases h : l[i]? <;> simp

theorem pyGet_of_lt {α : Type} (l : List α) (i : Nat) (h : i < l.length) :
    pyGet l i = .ok l[i] := by
  rw [pyGet_ok_iff]
  exact List.getElem?_eq_getElem h

/-- A buffered record that matches the correlator shape for `requestid`:
topic segment 6 is `helperbot` and segment 10 equals the request id. -/
def matchesReq (requestid : String) (r : Rec) : Prop :=
  (pySplit r.topic '/')[6]? = some "helperbot" ∧ (pySplit r.topic '/')[10]? = some requestid

instance (requestid : String) (r : Rec) : Decidable (matchesReq requestid r) := by
  unfold matchesReq
  infer_instance

theorem scan_no_match (requestid : String) :
    ∀ buffer : List Rec, (∀ r ∈ buffer, ¬ matchesReq requestid r) →
      scan requestid buffer = .exn ∨ scan requestid buffer = .noMatch := by
  intro buffer
  induction buffer with
  | nil => intro _; exact Or.inr rfl
  | cons msg rest ih =>
    intro h
    have hmsg := h msg (List.mem_cons_self msg rest)
    have hrest := ih (fun r hr => h r (List.mem_cons_of_mem msg hr))
    rw [scan]
    rcases h6 : pyGet (pySplit msg.topic '/') 6 with e | s6
    · exact Or.inl rfl
    · simp only []
      by_cases hs6 : s6 = "helperbot"
      · subst hs6
        rw [if_pos rfl]
        rcases h10 : pyGet (pySplit msg.topic '/') 10 with e | s10
        · exact Or.inl rfl
        · simp only []
          have hne : s10 ≠ requestid := by
            intro heq
            subst heq
            exact hmsg ⟨(pyGet_ok_iff _ _ _).mp h6, (pyGet_ok_iff _ _ _).mp h10⟩
          rw [if_neg hne]
          exact hrest
      · rw [if_neg hs6]
        exact hrest

theorem wait_for_resp_no_match (buffer : List Rec) (requestid : String)
    (h : ∀ r ∈ buffer, ¬ matchesReq requestid r) :
    wait_for_resp buffer requestid = (failResp requestid, buffer) := by
  rcases scan_no_match requestid buffer h with hs | hs <;>
    simp [wait_for_resp, hs]

theorem scan_append_skip (requestid : String) (l : List Rec) :
    ∀ pre : List Rec,
      (∀ r ∈ pre, 12 ≤ (pySplit r.topic '/').length ∧ ¬ matchesReq requestid r) →
      scan requestid (pre ++ l) = scan requestid l := by
  intro pre
  induction pre with
  | nil => intro _; rfl
  | cons msg rest ih =>
    intro h
    obtain ⟨hlen, hmsg⟩ := h msg (List.mem_cons_self msg rest)
    have hrest := ih (fun r hr => h r (List.mem_cons_of_mem msg hr))
    have h6 := pyGet_of_lt (pySplit msg.topic '/') 6 (by omega)
    have h10 := pyGet_of_lt (pySplit msg.topic '/') 10 (by omega)
    rw [List.cons_append, scan, h6]
    simp only []
    by_cases hs6 : (pySplit msg.topic '/')[6] = "helperbot"
    · rw [if_pos hs6, h10]
      simp only []
      have hne : (pySplit msg.topic '/')[10] ≠ requestid := by
        intro heq
        exact hmsg ⟨by rw [List.getElem?_eq_getElem (by omega : 6 < (pySplit msg.topic '/').length), hs6],
          by rw [List.getElem?_eq_getElem (by omega : 10 < (pySplit msg.topic '/').length), heq]⟩
      rw [if_neg hne]
      exact hrest
    · rw [if_neg hs6]
      exact hrest

theorem pyRemove_append_of_ne {α : Type} [DecidableEq α] (x : α) (l2 : List α) :
    ∀ l1 : List α, (∀ a ∈ l1, a ≠ x) →
      pyRemove (l1 ++ x :: l2) x = l1 ++ l2 := by
  intro l1
  induction l1 with
  | nil => intro _; simp [pyRemove]
  | cons a t ih =>
    intro h
    have ha : a ≠ x := h a (List.mem_cons_self a t)
    show pyRemove (a :: (t ++ x :: l2)) x = a :: (t ++ l2)
    rw [pyRemove, if_neg ha, ih (fun b hb => h b (List.mem_cons_of_mem a hb))]

/-!
## Lemmas about the dict and registry models
-/

theorem dictGet_nil {α : Type} (k : String) : dictGet ([] : List (String × α)) k = none := rfl

theorem dictGet_cons {α : Type} (k' : String) (v' : α) (t : List (String × α)) (k : String) :
    dictGet ((k', v') :: t) k = if k' == k then some v' else dictGet t k := by
  cases h : (k' == k : Bool) <;> simp [dictGet, List.find?, h]

theorem dictSet_cons {α : Type} (k' : String) (v' : α) (t : List (String × α)) (k : String) (v : α) :
    dictSet ((k', v') :: t) k v = if k' == k then (k', v) :: t else (k', v') :: dictSet t k v := rfl

theorem dictGet_dictSet_self {α : Type} (k : String) (v : α) :
    ∀ d : List (String × α), dictGet (dictSet d k v) k = some v := by
  intro d
  induction d with
  | nil => simp [dictSet, dictGet_cons]
  | cons p t ih =>
    cases p with
    | mk k' v' =>
      cases hk : (k' == k : Bool)
      · rw [dictSet_cons, if_neg (by simp [hk]), dictGet_cons, hk]
        simpa using ih
      · rw [dictSet_cons, if_pos hk, dictGet_cons, hk]
        simp

theorem dictSet_sameKeys {α : Type} (k : String) (v : α) :
    ∀ d : List (String × α), (dictGet d k).isSome →
      (dictSet d k v).map Prod.fst = d.map Prod.fst := by
  intro d
  induction d with
  | nil => intro h; simp [dictGet_nil] at h
  | cons p t ih =>
    intro h
    cases p with
    | mk k' v' =>
      cases hk : (k' == k : Bool)
      · rw [dictGet_cons, if_neg (by simp [hk])] at h
        rw [dictSet_cons, if_neg (by simp [hk])]
        simp [ih h]
      · rw [dictSet_cons, if_pos hk]
        simp

theorem dictSet_self {α : Type} (k : String) (v : α) :
    ∀ d : List (String × α), dictGet d k = some v → dictSet d k v = d := by
  intro d
  induction d with
  | nil => intro h; simp [dictGet_nil] at h
  | cons p t ih =>
    intro h
    cases p with
    | mk k' v' =>
      cases hk : (k' == k : Bool)
      · rw [dictGet_cons, if_neg (by simp [hk])] at h
        rw [dictSet_cons, if_neg (by simp [hk]), ih h]
      · rw [dictGet_cons, if_pos hk] at h
        rw [dictSet_cons, if_pos hk]
        simp_all

theorem botGet_nil (k : String) : botGet [] k = none := rfl

theorem botGet_cons (b : BotRec) (t : List BotRec) (k : String) :
    botGet (b :: t) k = if b.did == k then some b else botGet t k := by
  cases h : (b.did == k : Bool) <;> simp [botGet, List.find?, h]

theorem botGet_did (bots : List BotRec) (k : String) (b : BotRec)
    (h : botGet bots k = some b) : b.did = k := by
  have := List.find?_some h
  simpa using this

theorem bot_set_mqtt_did (b : BotRec) (k : String) (flag : Bool) :
    (if b.did == k then { b with mqtt_connected := flag } else b).did = b.did := by
  cases h : (b.did == k : Bool) <;> simp_all

theorem bot_set_mqtt_cons (b : BotRec) (t : List BotRec) (k : String) (flag : Bool) :
    bot_set_mqtt (b :: t) k flag =
      (if b.did == k then { b with mqtt_connected := flag } else b) :: bot_set_mqtt t k flag := rfl

theorem botGet_set (k : String) (flag : Bool) :
    ∀ bots : List BotRec, botGet (bot_set_mqtt bots k flag) k =
      (botGet bots k).map (fun b => { b with mqtt_connected := flag }) := by
  intro bots
  induction bots with
  | nil => rfl
  | cons b t ih =>
    simp only [bot_set_mqtt_cons, botGet_cons]
    cases hb : (b.did == k : Bool) <;> simp [hb, ih]

theorem bot_set_idem (k : String) (flag : Bool) :
    ∀ bots : List BotRec,
      bot_set_mqtt (bot_set_mqtt bots k flag) k flag = bot_set_mqtt bots k flag := by
  intro bots
  induction bots with
  | nil => rfl
  | cons b t ih =>
    simp only [bot_set_mqtt_cons, ih]
    cases hb : (b.did == k : Bool) <;> simp [hb]

/-!
## Claim theorems
-/

/-- A deployment with proxy mode off, credential enforcement on, anonymous
access off and an empty password file; external verifiers reject. -/
def envPlain : Env :=
  ⟨false, "", true, fun _ _ => false, fun _ _ => false, false, [], true⟩

/-- C1, counterexample.  The client id `did1@xrealm/bumper0` has the form
`<id>@<realm>/<resource>` and its realm `xrealm` is neither the end-user
realm `ecouser` nor the operator realm `bumper`, yet `authenticate`
returns false and upserts nothing: the code tests substring containment of
`ecouser`/`bumper` over the whole part after `@`, and the resource
`bumper0` contains `bumper`. -/
theorem C1_counterexample :
    authenticate envPlain st0 ⟨"did1" ++ "@" ++ ("xrealm" ++ "/" ++ "bumper0"), some "sn1", some "pw"⟩ =
      .ret false st0 ∧ "xrealm" ≠ "ecouser" ∧ "xrealm" ≠ "bumper" := by
  refine ⟨by decide, by decide, by decide⟩

/-- C1, amended.  For a session whose client id has the form
`<id>@<realm>/<resource>` where neither `ecouser` nor `bumper` occurs as a
substring of the part after `@` (the code's actual test, rather than realm
equality), and proxy mode is off, `authenticate` returns true and upserts
a Bot registry entry with serial = the session's username, DID = the part
before `@`, device class = the realm, resource = the resource. -/
theorem C1_amended (env : Env) (st : GlobalState) (s : MqttSession) (id realm res : String)
    (hcid : s.client_id = id ++ "@" ++ (realm ++ "/" ++ res))
    (hid : '@' ∉ id.data)
    (hrealmAt : '@' ∉ realm.data) (hrealmSl : '/' ∉ realm.data)
    (hresAt : '@' ∉ res.data) (hresSl : '/' ∉ res.data)
    (hec : pyContains (realm ++ "/" ++ res) "ecouser" = false)
    (hbu : pyContains (realm ++ "/" ++ res) "bumper" = false)
    (hproxy : env.bumper_proxy_mode = false) :
    authenticate env st s =
      .ret true { st with bots := bot_upsert st.bots ⟨s.username, id, realm, res, "eco-ng", false⟩ } := by
  have hbAt : '@' ∉ (realm ++ "/" ++ res).data := by
    simp only [String.data_append]
    intro hmem
    rcases List.mem_append.mp hmem with h | h
    · rcases List.mem_append.mp h with h | h
      · exact hrealmAt h
      · simp at h
    · exact hresAt h
  have hsplitAt : pySplit s.client_id '@' = [id, realm ++ "/" ++ res] := by
    rw [hcid]
    exact pySplit_pair id "@" (realm ++ "/" ++ res) '@' rfl hid hbAt
  have hcontains : pyContains s.client_id "@" = true := by
    rw [hcid]
    exact pyContains_mid id "@" (realm ++ "/" ++ res)
      ⟨id.data, (realm ++ "/" ++ res).data, by simp [String.data_append]⟩
  have hslash : pySplit (realm ++ "/" ++ res) '/' = [realm, res] :=
    pySplit_pair realm "/" res '/' rfl hrealmSl hresSl
  rw [authenticate, authenticateTry]
  simp only [hcid] at hsplitAt hcontains ⊢
  rw [hcontains]
  simp only [if_pos rfl, hsplitAt]
  simp only [pyGet, List.getElem?_cons_succ, List.getElem?_cons_zero]
  simp only [hec, hbu, Bool.or_false, Bool.not_false, if_pos rfl, hslash,
    List.headD_cons, hproxy, Bool.false_eq_true, if_neg, fileCheck]
  simp

/-- C1, witness for the amended theorem at the bot identity
`did1@ls1ok3/atom` with serial `sn1`. -/
theorem C1_witness :
    authenticate envPlain st0 ⟨"did1" ++ "@" ++ ("ls1ok3" ++ "/" ++ "atom"), some "sn1", some "pw"⟩ =
      .ret true { st0 with
        bots := bot_upsert st0.bots ⟨some "sn1", "did1", "ls1ok3", "atom", "eco-ng", false⟩ } :=
  C1_amended envPlain st0 _ "did1" "ls1ok3" "atom" rfl (by decide) (by decide) (by decide)
    (by decide) (by decide) (by decide) (by decide) rfl

/-- C2.  A `send_command` whose request buffer holds (after any number of
well-formed, non-matching records) a reply record whose destination
segment is `helperbot` and whose request-id segment is the request id
returns `ret = "ok"` with the payload decoded per the payload-type
segment — the JSON value round-trips for type `j` and the raw text for any
other type — and the consumed record is removed from the buffer. -/
theorem C2_theorem (pre post : List Rec) (rc : Rec) (cmd : CmdJson) (requestid : String)
    (hpre : ∀ r ∈ pre, 12 ≤ (pySplit r.topic '/').length ∧ ¬ matchesReq requestid r)
    (h6 : (pySplit rc.topic '/')[6]? = some "helperbot")
    (h10 : (pySplit rc.topic '/')[10]? = some requestid) :
    ((pySplit rc.topic '/')[11]? = some "j" → ∀ v, wfJ v = true → rc.payload = jdumps v →
      (send_command (some ()) (pre ++ rc :: post) cmd requestid).resp =
          some ⟨requestid, "ok", some (.json v), none, none⟩ ∧
        (send_command (some ()) (pre ++ rc :: post) cmd requestid).buffer = pre ++ post)
    ∧ (∀ s11, (pySplit rc.topic '/')[11]? = some s11 → s11 ≠ "j" →
      (send_command (some ()) (pre ++ rc :: post) cmd requestid).resp =
          some ⟨requestid, "ok", some (.raw rc.payload), none, none⟩ ∧
        (send_command (some ()) (pre ++ rc :: post) cmd requestid).buffer = pre ++ post) := by
  have hskip := scan_append_skip requestid (rc :: post) pre hpre
  have hnotin : ∀ r ∈ pre, r ≠ rc := by
    intro r hr heq
    exact (hpre r hr).2 (heq ▸ ⟨h6, h10⟩)
  have hremove := pyRemove_append_of_ne rc post pre hnotin
  constructor
  · intro h11 v hv hpay
    have hscan : scan requestid (pre ++ rc :: post) = .found rc (.json v) := by
      rw [hskip, scan, (pyGet_ok_iff _ _ _).mpr h6]
      simp only [if_pos rfl]
      rw [(pyGet_ok_iff _ _ _).mpr h10]
      simp only [if_pos rfl]
      rw [(pyGet_ok_iff _ _ _).mpr h11]
      simp only [if_pos rfl]
      rw [hpay, jloads_jdumps v hv]
      simp
    simp [send_command, wait_for_resp, hscan, hremove]
  · intro s11 h11 hne
    have hscan : scan requestid (pre ++ rc :: post) = .found rc (.raw rc.payload) := by
      rw [hskip, scan, (pyGet_ok_iff _ _ _).mpr h6]
      simp only [if_pos rfl]
      rw [(pyGet_ok_iff _ _ _).mpr h10]
      simp only [if_pos rfl]
      rw [(pyGet_ok_iff _ _ _).mpr h11]
      simp [if_neg hne]
    simp [send_command, wait_for_resp, hscan, hremove]

/-- C2, witness: a buffer holding exactly the matching `j`-type reply with
payload `12` yields `ok` with the decoded JSON value and an emptied
buffer. -/
theorem C2_witness :
    (send_command (some ()) [⟨0, "iot/p2p/c/BOT/t/r/helperbot/bumper/helperbot/p/r1/j", "12"⟩]
        ⟨"c", "BOT", "t", "r", "j", .jnum 12⟩ "r1").resp =
      some ⟨"r1", "ok", some (.json (.jnum 12)), none, none⟩ ∧
    (send_command (some ()) [⟨0, "iot/p2p/c/BOT/t/r/helperbot/bumper/helperbot/p/r1/j", "12"⟩]
        ⟨"c", "BOT", "t", "r", "j", .jnum 12⟩ "r1").buffer = [] :=
  (C2_theorem [] [] ⟨0, "iot/p2p/c/BOT/t/r/helperbot/bumper/helperbot/p/r1/j", "12"⟩
      ⟨"c", "BOT", "t", "r", "j", .jnum 12⟩ "r1"
      (by intro r hr; simp at hr) (by decide) (by decide)).1
    (by decide) (.jnum 12) (by decide) (by decide)

/-- C3, counterexample.  On an empty buffer (no matching record at all)
`wait_for_resp` does return a structured failure with `ret = "fail"` and
`errno = 500`, but its `debug` field is the string
`"wait for response timed out"`, not `"timeout"` as the claim states. -/
theorem C3_counterexample :
    (wait_for_resp [] "req1").1.ret = "fail" ∧
    (wait_for_resp [] "req1").1.errno = some 500 ∧
    (wait_for_resp [] "req1").1.id = "req1" ∧
    (wait_for_resp [] "req1").1.debug = some "wait for response timed out" ∧
    ¬ (wait_for_resp [] "req1").1.debug = some "timeout" := by
  refine ⟨by decide, by decide, by decide, by decide, by decide⟩

/-- C3, amended.  When no buffered record has destination segment
`helperbot` together with a request-id segment equal to the request id,
`wait_for_resp` deterministically returns the structured failure
`{id, ret:"fail", errno:500, debug:"wait for response timed out"}` as a
normal value (never a raised error), leaving the buffer unchanged. -/
theorem C3_amended (buffer : List Rec) (requestid : String)
    (h : ∀ r ∈ buffer, ¬ matchesReq requestid r) :
    wait_for_resp buffer requestid =
      (⟨requestid, "fail", none, some 500, some "wait for response timed out"⟩, buffer) :=
  wait_for_resp_no_match buffer requestid h

/-- C3, witness: the empty buffer trivially has no matching record. -/
theorem C3_witness :
    wait_for_resp [] "req2" =
      (⟨"req2", "fail", none, some 500, some "wait for response timed out"⟩, []) :=
  C3_amended [] "req2" (by intro r hr; simp at hr)

/-- A proxy-mode deployment with a configured upstream server. -/
def envProxy : Env :=
  ⟨true, "mq.ecovacs.com", true, fun _ _ => false, fun _ _ => false, false, [], true⟩

/-- C4.  The upstream direction works as claimed: a `p2p` message received
from the vendor cloud records `REQ1 -> HELPERNAME` and is republished
downstream with the sender segment rewritten to `proxyhelper`.  But the
reverse direction is broken: the bot's reply addressed to `proxyhelper`
with the same request id makes `on_broker_message_received` raise
`NameError` (the name `msgdata` is never assigned in that function) right
after popping the mapping, so nothing is forwarded upstream. -/
theorem C4_theorem :
    get_msg_step [] "iot/p2p/cmdX/HELPERNAME/t/r/BOT/tt/rr/q/REQ1/j" "body" =
      .ok ([("REQ1", "HELPERNAME")], ("iot/p2p/cmdX/proxyhelper/t/r/BOT/tt/rr/q/REQ1/j", "body")) ∧
    on_broker_message_received envProxy
        { st0 with proxyclients := [("BOT@ls1ok3/atom", ⟨true, []⟩)],
                   eco_helper_names := [("REQ1", "HELPERNAME")] }
        "BOT@ls1ok3/atom" "iot/p2p/cmdX/BOT/tt/rr/proxyhelper/t/r/p/REQ1/j" "resp" 0 =
      ⟨.raised .nameError,
        { st0 with proxyclients := [("BOT@ls1ok3/atom", ⟨true, []⟩)], eco_helper_names := [] },
        none⟩ := by
  refine ⟨by rfl, by decide⟩

/-- C5, counterexample.  A message whose topic `a/b/c` has fewer than 7
segments makes the message hook raise `IndexError` (at `topic_split[6]`)
instead of routing the message to default logging. -/
theorem C5_counterexample :
    on_broker_message_received envPlain st0 "cid1" "a/b/c" "d" 0 =
      ⟨.raised .indexError, st0, none⟩ := by
  decide

/-- C5, amended.  Out of proxy mode: a topic with at least 7 segments that
matches none of the classified shapes is routed to default (unclassified)
logging without error; but a topic with fewer than 7 segments makes the
message hook raise `IndexError`, and a client id that splits at `@` into a
single piece (no `@`) with no bot registered under it makes
`_set_client_connected` raise `IndexError`. -/
theorem C5_amended :
    (∀ env st cid topic data now, env.bumper_proxy_mode = false →
      (pySplit topic '/').length < 7 →
      on_broker_message_received env st cid topic data now = ⟨.raised .indexError, st, none⟩)
    ∧ (∀ env st cid topic data now s6 s3 s1, env.bumper_proxy_mode = false →
      (pySplit topic '/')[6]? = some s6 → s6 ≠ "helperbot" →
      (pySplit topic '/')[3]? = some s3 → s3 ≠ "helperbot" →
      (pySplit topic '/')[1]? = some s1 → s1 ≠ "atr" →
      on_broker_message_received env st cid topic data now =
        ⟨.ok, { st with command_responses := prune now st.command_responses }, some .unclassified⟩)
    ∧ (∀ st cid, (pySplit cid '@').length = 1 →
      botGet st.bots ((pySplit cid '@').headD "") = none →
      set_client_connected st cid false = (.raised .indexError, st)) := by
  refine ⟨?_, ?_, ?_⟩
  · intro env st cid topic data now hp hlen
    have h6 : (pySplit topic '/')[6]? = none := List.getElem?_eq_none (by omega)
    rw [on_broker_message_received]
    rw [if_neg (by simp [hp])]
    rw [hookClassify]
    simp [pyGet, h6]
  · intro env st cid topic data now s6 s3 s1 hp h6 hn6 h3 hn3 h1 hn1
    rw [on_broker_message_received]
    rw [if_neg (by simp [hp])]
    rw [hookClassify, (pyGet_ok_iff _ _ _).mpr h6]
    simp only [if_neg hn6]
    rw [(pyGet_ok_iff _ _ _).mpr h3]
    simp only [if_neg hn3]
    rw [(pyGet_ok_iff _ _ _).mpr h1]
    simp only [if_neg hn1]
  · intro st cid hlen hbot
    have h1 : (pySplit cid '@')[1]? = none := List.getElem?_eq_none (by omega)
    rw [set_client_connected, hbot]
    simp [pyGet, h1]

/-- C5, witness: a 7-segment topic of no classified shape routes to
default logging without raising. -/
theorem C5_witness :
    on_broker_message_received envPlain st0 "cid2" "s0/s1/s2/s3/s4/s5/s6" "d" 0 =
      ⟨.ok, st0, some .unclassified⟩ :=
  (C5_amended.2.1 envPlain st0 "cid2" "s0/s1/s2/s3/s4/s5/s6" "d" 0 "s6" "s3" "s1" rfl
    (by decide) (by decide) (by decide) (by decide) (by decide) (by decide)).trans (by decide)

/-- C6, counterexample.  The message hook appends a helperbot-destined
reply unconditionally: delivering the same reply twice leaves two buffered
records whose request-id segments are both `r77`, so the at-most-one-
record-per-requestId invariant does not hold. -/
theorem C6_counterexample :
    (on_broker_message_received envPlain
        { st0 with command_responses :=
            [⟨0, "iot/p2p/c/BOT/t/r/helperbot/bumper/helperbot/p/r77/j", "pl"⟩] }
        "cid3" "iot/p2p/c/BOT/t/r/helperbot/bumper/helperbot/p/r77/j" "pl" 0).st.command_responses =
      [⟨0, "iot/p2p/c/BOT/t/r/helperbot/bumper/helperbot/p/r77/j", "pl"⟩,
        ⟨0, "iot/p2p/c/BOT/t/r/helperbot/bumper/helperbot/p/r77/j", "pl"⟩] ∧
    (pySplit "iot/p2p/c/BOT/t/r/helperbot/bumper/helperbot/p/r77/j" '/')[10]? = some "r77" := by
  refine ⟨by decide, by decide⟩

/-- C6, amended.  The hook appends every helperbot-destined reply to the
buffer unconditionally — with no deduplication against records already
buffered under the same request id — and only the age-based pruning pass
runs afterwards; a duplicate is therefore dropped later (by the consumer
taking only the first match, or by pruning), not prevented or
overwritten. -/
theorem C6_amended (env : Env) (st : GlobalState) (cid topic data : String) (now : Nat)
    (hp : env.bumper_proxy_mode = false)
    (h6 : (pySplit topic '/')[6]? = some "helperbot") :
    on_broker_message_received env st cid topic data now =
      ⟨.ok,
        { st with
            command_responses := prune now (st.command_responses ++ [⟨now, topic, data⟩]) },
        some .response⟩ := by
  rw [on_broker_message_received]
  rw [if_neg (by simp [hp])]
  rw [hookClassify, (pyGet_ok_iff _ _ _).mpr h6]
  simp

/-- C6, witness: a fresh reply is appended (and survives pruning at the
same instant). -/
theorem C6_witness :
    on_broker_message_received envPlain st0 "cid4"
        "iot/p2p/c/BOT/t/r/helperbot/bumper/helperbot/p/r88/j" "pw" 5 =
      ⟨.ok,
        { st0 with
            command_responses := [⟨5, "iot/p2p/c/BOT/t/r/helperbot/bumper/helperbot/p/r88/j", "pw"⟩] },
        some .response⟩ :=
  (C6_amended envPlain st0 "cid4" "iot/p2p/c/BOT/t/r/helperbot/bumper/helperbot/p/r88/j" "pw" 5
    rfl (by decide)).trans (by decide)

/-- C7.  The pruning pass at the end of the message hook iterates over the
buffer while removing from it, so the record sliding into a removed
record's slot is skipped: with two consecutive expired records (both aged
past the 60-second window at `now = 100`), one expired record is still in
the buffer after the hook completes. -/
theorem C7_theorem :
    (on_broker_message_received envPlain
        { st0 with command_responses := [⟨0, "ta", "pa"⟩, ⟨0, "tb", "pb"⟩] }
        "cid5" "s0/s1/s2/s3/s4/s5/s6" "d" 100).st.command_responses = [⟨0, "tb", "pb"⟩] ∧
    (on_broker_message_received envPlain
        { st0 with command_responses := [⟨0, "ta", "pa"⟩, ⟨0, "tb", "pb"⟩] }
        "cid5" "s0/s1/s2/s3/s4/s5/s6" "d" 100).res = .ok ∧
    100 > 0 + 60 := by
  refine ⟨by decide, by decide, by decide⟩

/-- C8, counterexample.  Disconnecting a proxied bot leaves its entry in
the proxy-session table (only the upstream connection is closed) and keeps
its request-id mapping, contrary to the claimed removal of both. -/
theorem C8_counterexample :
    (on_broker_client_disconnected envProxy
        { st0 with
            proxyclients := [("bot1@x/y", ⟨true, []⟩)],
            eco_helper_names := [("r1", "h1")],
            bots := [⟨some "sn", "bot1", "x", "y", "eco-ng", true⟩] }
        "bot1@x/y").1 = .ok ∧
    (dictGet (on_broker_client_disconnected envProxy
        { st0 with
            proxyclients := [("bot1@x/y", ⟨true, []⟩)],
            eco_helper_names := [("r1", "h1")],
            bots := [⟨some "sn", "bot1", "x", "y", "eco-ng", true⟩] }
        "bot1@x/y").2.proxyclients "bot1@x/y").isSome = true ∧
    (on_broker_client_disconnected envProxy
        { st0 with
            proxyclients := [("bot1@x/y", ⟨true, []⟩)],
            eco_helper_names := [("r1", "h1")],
            bots := [⟨some "sn", "bot1", "x", "y", "eco-ng", true⟩] }
        "bot1@x/y").2.eco_helper_names = [("r1", "h1")] := by
  refine ⟨by decide, by decide, by decide⟩

/-- C8, amended.  Disconnecting a proxied bot closes its upstream
connection and clears the registry live flag, but the proxy-session table
keeps the bot's entry (its key set is unchanged) and the request-id
mappings are untouched; a repeat disconnect for the same client id is a
no-op, not an error. -/
theorem C8_amended (env : Env) (st : GlobalState) (cid : String) (pc : PClient) (b : BotRec)
    (hp : env.bumper_proxy_mode = true)
    (hpc : dictGet st.proxyclients cid = some pc)
    (hbot : botGet st.bots ((pySplit cid '@').headD "") = some b) :
    on_broker_client_disconnected env st cid =
      (.ok,
        { st with
            proxyclients := dictSet st.proxyclients cid (hb_disconnect pc),
            bots := bot_set_mqtt st.bots b.did false }) ∧
    dictGet (dictSet st.proxyclients cid (hb_disconnect pc)) cid = some (hb_disconnect pc) ∧
    (dictSet st.proxyclients cid (hb_disconnect pc)).map Prod.fst = st.proxyclients.map Prod.fst ∧
    on_broker_client_disconnected env
        { st with
            proxyclients := dictSet st.proxyclients cid (hb_disconnect pc),
            bots := bot_set_mqtt st.bots b.did false } cid =
      (.ok,
        { st with
            proxyclients := dictSet st.proxyclients cid (hb_disconnect pc),
            bots := bot_set_mqtt st.bots b.did false }) := by
  have hdid := botGet_did st.bots _ b hbot
  have hfirst : on_broker_client_disconnected env st cid =
      (.ok,
        { st with
            proxyclients := dictSet st.proxyclients cid (hb_disconnect pc),
            bots := bot_set_mqtt st.bots b.did false }) := by
    rw [on_broker_client_disconnected]
    simp only [hp, hpc, if_true]
    rw [set_client_connected]
    simp only [hbot]
  refine ⟨hfirst, dictGet_dictSet_self cid (hb_disconnect pc) st.proxyclients,
    dictSet_sameKeys cid (hb_disconnect pc) st.proxyclients (by simp [hpc]), ?_⟩
  have hbot' : botGet st.bots b.did = some b := by
    rw [hdid]
    exact hbot
  have hbot2 : botGet (bot_set_mqtt st.bots b.did false) ((pySplit cid '@').headD "") =
      some { b with mqtt_connected := false } := by
    rw [← hdid, botGet_set, hbot']
    rfl
  have hget2 : dictGet (dictSet st.proxyclients cid (hb_disconnect pc)) cid =
      some (hb_disconnect pc) := dictGet_dictSet_self cid (hb_disconnect pc) st.proxyclients
  have hset : dictSet (dictSet st.proxyclients cid (hb_disconnect pc)) cid
      (hb_disconnect (hb_disconnect pc)) = dictSet st.proxyclients cid (hb_disconnect pc) := by
    have hidem : hb_disconnect (hb_disconnect pc) = hb_disconnect pc := rfl
    rw [hidem]
    exact dictSet_self cid (hb_disconnect pc) _ hget2
  rw [on_broker_client_disconnected]
  simp only [hp, hget2, if_true, hset]
  rw [set_client_connected]
  simp only [hbot2, bot_set_idem]

/-- C8, witness for the amended theorem at a concrete proxied bot. -/
theorem C8_witness :
    on_broker_client_disconnected envProxy
        { st0 with
            proxyclients := [("bot2@x/y", ⟨true, []⟩)],
            eco_helper_names := [("r2", "h2")],
            bots := [⟨some "sn2", "bot2", "x", "y", "eco-ng", true⟩] }
        "bot2@x/y" =
      (.ok,
        { st0 with
            proxyclients := [("bot2@x/y", ⟨false, []⟩)],
            eco_helper_names := [("r2", "h2")],
            bots := [⟨some "sn2", "bot2", "x", "y", "eco-ng", false⟩] }) :=
  ((C8_amended envProxy
      { st0 with
          proxyclients := [("bot2@x/y", ⟨true, []⟩)],
          eco_helper_names := [("r2", "h2")],
          bots := [⟨some "sn2", "bot2", "x", "y", "eco-ng", true⟩] }
      "bot2@x/y" ⟨true, []⟩ ⟨some "sn2", "bot2", "x", "y", "eco-ng", true⟩
      rfl (by decide) (by decide)).1).trans (by decide)

/-- A deployment like `envPlain` but whose password file holds `u1` with
hash `h1`, and whose external verifier accepts exactly password `pw`
against hash `h1`. -/
def envUsers : Env :=
  ⟨false, "", true, fun _ _ => false, fun p h => p == some "pw" && h == "h1", false,
    [("u1", "h1")], true⟩

/-- C9, counterexample.  For the client id `did@realmnoslash` (contains
`@`, realm part has no `/`) with username `u1` and password `pw` — a pair
the credential store would accept — `authenticate` still returns false:
the parse failure raises inside the `try` block and the `except` handler
skips the file-based check, leaving only the anonymous check. -/
theorem C9_counterexample :
    authenticate envUsers st0 ⟨"did" ++ "@" ++ "realmnoslash", some "u1", some "pw"⟩ =
      .ret false st0 ∧
    dictGet envUsers.users "u1" = some "h1" ∧
    envUsers.pwd_verify (some "pw") "h1" = true := by
  refine ⟨by decide, by decide, by decide⟩

/-- The result of the file-based check alone: look the username up and
verify the password against the stored hash (false for a falsy username
or a missing entry). -/
def fileAuthResult (env : Env) (s : MqttSession) : Bool :=
  if pyTruthy s.username then
    match dictGet env.users (s.username.getD "") with
    | some h => env.pwd_verify s.password h
    | none => false
  else false

/-- The trailing anonymous-access check applied to an intermediate
authentication outcome. -/
def anonWrap (env : Env) (b : Bool) : Bool :=
  if env.allow_anonymous && !b then true else b

theorem fileCheck_false (env : Env) (st : GlobalState) (s : MqttSession) :
    fileCheck env st s false = .ok (fileAuthResult env s) st := by
  rw [fileCheck, fileAuthResult]
  cases hT : pyTruthy s.username
  · simp [hT]
  · simp only [hT, Bool.not_false, Bool.and_true, if_pos rfl]
    cases hL : dictGet env.users (s.username.getD "") <;> simp [hL]

/-- C9, amended.  A client id without `@` falls through to the file-based
check and then the anonymous check, authenticating if either succeeds; but
a client id containing `@` whose part after `@` has no `/` raises inside
the parse attempt, the handler skips the file-based check, and only the
anonymous check decides the outcome. -/
theorem C9_amended :
    (∀ env st s, pyContains s.client_id "@" = false →
      authenticate env st s = .ret (anonWrap env (fileAuthResult env s)) st)
    ∧ (∀ env st s a b, s.client_id = a ++ "@" ++ b →
      '@' ∉ a.data → '@' ∉ b.data → '/' ∉ b.data →
      authenticate env st s = .ret (if env.allow_anonymous then true else false) st) := by
  constructor
  · intro env st s h
    rw [authenticate, authenticateTry, h]
    simp [fileCheck_false, anonWrap]
  · intro env st s a b hcid haAt hbAt hbSl
    have hsplit : pySplit s.client_id '@' = [a, b] := by
      rw [hcid]
      exact pySplit_pair a "@" b '@' rfl haAt hbAt
    have hcontains : pyContains s.client_id "@" = true := by
      rw [hcid]
      exact pyContains_mid a "@" b ⟨a.data, b.data, by simp [String.data_append]⟩
    have hslash : pySplit b '/' = [b] := pySplit_single b '/' hbSl
    rw [authenticate, authenticateTry, hcontains]
    simp only [if_pos rfl, hsplit]
    simp only [pyGet, List.getElem?_cons_succ, List.getElem?_cons_zero, hslash]
    by_cases hc : (pyContains b "ecouser" || pyContains b "bumper" : Bool) = true
    · simp [hc]
    · simp only [Bool.not_eq_true] at hc
      simp [hc]

/-- C9, witness: both amended cases at concrete inputs — a client id
without `@` is decided by the file check (here: no entry, anonymous off,
hence false), and one with `@` but no `/` is decided by the anonymous
check alone (here false). -/
theorem C9_witness :
    authenticate envPlain st0 ⟨"noatsign", some "u", some "p"⟩ = .ret false st0 ∧
    authenticate envUsers st0 ⟨"did2" ++ "@" ++ "realmns", some "u1", some "pw"⟩ =
      .ret false st0 := by
  constructor
  · exact (C9_amended.1 envPlain st0 ⟨"noatsign", some "u", some "p"⟩ (by decide)).trans (by decide)
  · exact (C9_amended.2 envUsers st0 ⟨"did2" ++ "@" ++ "realmns", some "u1", some "pw"⟩
      "did2" "realmns" rfl (by decide) (by decide) (by decide)).trans (by decide)

/-- C10, counterexample.  With the helperbot's writer absent,
`send_command` skips its whole body and returns Python's implicit `None` —
no structured result at all. -/
theorem C10_counterexample :
    send_command none [] ⟨"c", "t", "tt", "tr", "j", .jnum 1⟩ "r9" = ⟨none, [], []⟩ ∧
    (send_command none [] ⟨"c", "t", "tt", "tr", "j", .jnum 1⟩ "r9").resp = none := by
  refine ⟨by decide, by decide⟩

/-- C10, amended.  With the writer present, every `send_command` call —
including one whose payload type is neither `j` nor `x`, which publishes
nothing — returns a structured result whose `id` equals the request id and
whose `ret` is `"ok"` or `"fail"`; with the writer absent it returns no
result. -/
theorem C10_amended (buffer : List Rec) (cmd : CmdJson) (requestid : String) :
    (∃ r, (send_command (some ()) buffer cmd requestid).resp = some r ∧
      r.id = requestid ∧ (r.ret = "ok" ∨ r.ret = "fail")) ∧
    send_command none buffer cmd requestid = ⟨none, buffer, []⟩ := by
  refine ⟨?_, rfl⟩
  cases hscan : scan requestid buffer with
  | found msg p =>
    exact ⟨⟨requestid, "ok", some p, none, none⟩,
      by simp [send_command, wait_for_resp, hscan], rfl, Or.inl rfl⟩
  | exn =>
    exact ⟨failResp requestid, by simp [send_command, wait_for_resp, hscan], rfl, Or.inr rfl⟩
  | noMatch =>
    exact ⟨failResp requestid, by simp [send_command, wait_for_resp, hscan], rfl, Or.inr rfl⟩
